import Mathlib

/-!
Verification of the Breakout clone's simulation core.

The C++ sources (`Game.cpp`, `Ball.cpp`, `Paddle.cpp`, `Brick.cpp`,
`constants.hpp`) are shallowly embedded below.  Float arithmetic is modelled
over an arbitrary linear ordered field so that the purely arithmetic parts
can be evaluated exactly over `ℚ`; the operations that use `sqrt`, `sin`,
`cos` (speed normalisation, paddle deflection, brick reflection normals) are
embedded over `ℝ`.  C++ `int` fields are modelled as `ℤ` (no overflow occurs
in the ranges exercised by the game).
-/

/-- A 2D vector, mirroring `sf::Vector2f`. -/
structure Vec2 (α : Type) where
  x : α
  y : α
deriving DecidableEq

variable {α : Type} [LinearOrderedField α]

/-- Squared Euclidean magnitude of a vector. -/
def Vec2.normSq (v : Vec2 α) : α := v.x * v.x + v.y * v.y

/-- Euclidean magnitude of a real vector. -/
noncomputable def Vec2.norm (v : Vec2 ℝ) : ℝ := Real.sqrt v.normSq

/-- The ball entity (`Ball.hpp`/`Ball.cpp`): centre position, velocity,
radius, and the moving flag. -/
structure Ball (α : Type) where
  pos : Vec2 α
  vel : Vec2 α
  radius : α
  moving : Bool
deriving DecidableEq

/-- `Ball::update`: Euler integration, a no-op unless moving. -/
def Ball.update (b : Ball α) (deltaTime : α) : Ball α :=
  if b.moving then
    { b with pos := ⟨b.pos.x + b.vel.x * deltaTime, b.pos.y + b.vel.y * deltaTime⟩ }
  else b

/-- `Ball::reset`: reposition, zero the velocity, stop moving. -/
def Ball.reset (b : Ball α) (x y : α) : Ball α :=
  { b with pos := ⟨x, y⟩, vel := ⟨0, 0⟩, moving := false }

/-- `Ball::setPosition`. -/
def Ball.setPosition (b : Ball α) (x y : α) : Ball α :=
  { b with pos := ⟨x, y⟩ }

/-- `Ball::setVelocityX`. -/
def Ball.setVelocityX (b : Ball α) (vx : α) : Ball α :=
  { b with vel := ⟨vx, b.vel.y⟩ }

/-- `Ball::setVelocityY`. -/
def Ball.setVelocityY (b : Ball α) (vy : α) : Ball α :=
  { b with vel := ⟨b.vel.x, vy⟩ }

/-- `Ball::getSpeed`: `sqrt (vx² + vy²)`. -/
noncomputable def Ball.getSpeed (b : Ball ℝ) : ℝ :=
  Real.sqrt (b.vel.x * b.vel.x + b.vel.y * b.vel.y)

/-- `Ball::normaliseSpeed`: rescale the velocity to the target magnitude,
guarding against division by a near-zero current speed. -/
noncomputable def Ball.normaliseSpeed (b : Ball ℝ) (speed : ℝ) : Ball ℝ :=
  let currentSpeed := b.getSpeed
  if currentSpeed < 0.0001 then b
  else { b with vel := ⟨b.vel.x / currentSpeed * speed, b.vel.y / currentSpeed * speed⟩ }

/-- A brick (`Brick.hpp`/`Brick.cpp`): axis-aligned rectangle (left/top/size),
current and maximum hit points, precomputed point value, destroyed flag.
The display colour is ignored (visual only, not part of any claim). -/
structure Brick (α : Type) where
  x : α
  y : α
  width : α
  height : α
  hitPoints : ℤ
  maxHitPoints : ℤ
  points : ℤ
  destroyed : Bool
deriving DecidableEq

/-- `Brick::hit`: a no-op on a destroyed brick; otherwise decrement the hit
points, clamping at zero and setting the destroyed flag when they run out. -/
def Brick.hit (b : Brick α) : Brick α :=
  if b.destroyed then b
  else
    let hp := b.hitPoints - 1
    if hp ≤ 0 then { b with hitPoints := 0, destroyed := true }
    else { b with hitPoints := hp }

/-- `Brick::isDestroyed`. -/
def Brick.isDestroyed (b : Brick α) : Bool := b.destroyed

/-- `Brick::draw` draws nothing when the brick is destroyed; this predicate
records whether the brick is rendered at all. -/
def Brick.isDrawn (b : Brick α) : Bool := !b.destroyed

/-- `Brick::getPoints`. -/
def Brick.getPoints (b : Brick α) : ℤ := b.points

/-- The paddle (`Paddle.hpp`/`Paddle.cpp`): left-edge position, size, speed. -/
structure Paddle (α : Type) where
  x : α
  y : α
  width : α
  height : α
  speed : α
deriving DecidableEq

/-- `Paddle::update`: read the directional intent from the held keys (left and
right cancel), advance the left edge, and clamp it into the window. -/
def Paddle.update (p : Paddle α) (deltaTime windowWidth : α)
    (leftPressed rightPressed : Bool) : Paddle α :=
  let horizontalInput : α :=
    (if leftPressed then -1 else 0) + (if rightPressed then 1 else 0)
  let newX := p.x + horizontalInput * p.speed * deltaTime
  let newX := max 0 (min newX (windowWidth - p.width))
  { p with x := newX }

/-- `Paddle::setPositionX`. -/
def Paddle.setPositionX (p : Paddle α) (x : α) : Paddle α := { p with x := x }

/-- `Paddle::getCentreX`. -/
def Paddle.getCentreX (p : Paddle α) : α := p.x + p.width * (1/2)

/-- `Paddle::getTopY`. -/
def Paddle.getTopY (p : Paddle α) : α := p.y

/-- The game phases (`GameState` in `Game.hpp`). -/
inductive GameState where
  | MainMenu
  | BallOnPaddle
  | Playing
  | Paused
  | LevelComplete
  | GameOver
  | Victory
  | Controls
deriving DecidableEq

/-- Row base score values (`ROW_POINTS` in `Game.cpp`). -/
def ROW_POINTS : List ℤ := [60, 50, 40, 30, 20, 10]

/-- Row base hit points at level 1 (`ROW_BASE_HIT_POINTS` in `Game.cpp`). -/
def ROW_BASE_HIT_POINTS : List ℤ := [1, 1, 1, 1, 1, 1]

/-- The controller state (`Game.hpp`): entities plus session counters.
Rendering-only members (window, font, clock) are omitted. -/
structure Game (α : Type) where
  ball : Ball α
  paddle : Paddle α
  bricks : List (Brick α)
  state : GameState
  score : ℤ
  lives : ℤ
  level : ℤ
  ballSpeed : α
  levelCompleteTimer : α
  bricksRemaining : ℤ
  previousState : GameState

/-- `Game::createBricks`: rebuild the 6 × 10 grid.  Constants from
`constants.hpp`: window width 800, brick size 68 × 22, padding 4, top offset
60.  Each brick gets `ROW_BASE_HIT_POINTS[row] + max 0 (level - 1)` hit
points and `ROW_POINTS[row] * hp` points. -/
def Game.createBricks (g : Game α) : Game α :=
  let extraHitPoints : ℤ := max 0 (g.level - 1)
  let totalGridWidth : α := 10 * 68 + (10 - 1) * 4
  let gridStartX : α := (800 - totalGridWidth) * (1/2)
  let bricks : List (Brick α) :=
    (List.range 6).flatMap fun row =>
      (List.range 10).map fun col =>
        let hp := ROW_BASE_HIT_POINTS.getD row 0 + extraHitPoints
        { x := gridStartX + (col : α) * (68 + 4)
          y := 60 + (row : α) * (22 + 4)
          width := 68
          height := 22
          hitPoints := hp
          maxHitPoints := hp
          points := ROW_POINTS.getD row 0 * hp
          destroyed := false }
  { g with bricks := bricks, bricksRemaining := (bricks.length : ℤ) }

/-- `Game::resetBallOnPaddle`: anchor the ball just above the paddle centre
(`BALL_RADIUS = 8`) and enter `BallOnPaddle`. -/
def Game.resetBallOnPaddle (g : Game α) : Game α :=
  let ballX := g.paddle.getCentreX
  let ballY := g.paddle.getTopY - 8 - 1
  { g with ball := g.ball.reset ballX ballY, state := GameState.BallOnPaddle }

/-- `Game::advanceLevel`: next level, faster ball (step 35, capped at 600),
re-centred paddle (window 800, paddle width 120), fresh grid, ball anchored. -/
def Game.advanceLevel (g : Game α) : Game α :=
  let g := { g with
    level := g.level + 1,
    ballSpeed := min (g.ballSpeed + 35) 600,
    paddle := g.paddle.setPositionX ((800 - 120) * (1/2)) }
  g.createBricks.resetBallOnPaddle

/-- `Game::restartGame`: full session reset. -/
def Game.restartGame (g : Game α) : Game α :=
  let g := { g with
    score := 0,
    lives := 3,
    level := 1,
    ballSpeed := 320,
    paddle := g.paddle.setPositionX ((800 - 120) * (1/2)) }
  g.createBricks.resetBallOnPaddle

/-- Left-wall block of `Game::handleWallCollisions`.  `pos` is the ball
position captured once at the top of the function (the C++ reads it into a
local before any branch); `radius` likewise. -/
def Game.leftWallStep (g : Game α) (pos : Vec2 α) (radius : α) : Game α :=
  if pos.x - radius < 0 then
    { g with ball := (g.ball.setVelocityX |g.ball.vel.x|).setPosition radius pos.y }
  else g

/-- Right-wall block of `Game::handleWallCollisions` (window width 800). -/
def Game.rightWallStep (g : Game α) (pos : Vec2 α) (radius : α) : Game α :=
  if pos.x + radius > 800 then
    { g with ball := (g.ball.setVelocityX (-|g.ball.vel.x|)).setPosition (800 - radius) pos.y }
  else g

/-- Top-wall block of `Game::handleWallCollisions`. -/
def Game.topWallStep (g : Game α) (pos : Vec2 α) (radius : α) : Game α :=
  if pos.y - radius < 0 then
    { g with ball := (g.ball.setVelocityY |g.ball.vel.y|).setPosition pos.x radius }
  else g

/-- Bottom-boundary block of `Game::handleWallCollisions` (window height
600): the player missed the ball, so lose a life and either end the game or
re-anchor the ball on the paddle. -/
def Game.bottomStep (g : Game α) (pos : Vec2 α) (radius : α) : Game α :=
  if pos.y - radius > 600 then
    let lives := g.lives - 1
    if lives ≤ 0 then { g with lives := 0, state := GameState.GameOver }
    else Game.resetBallOnPaddle { g with lives := lives }
  else g

/-- `Game::handleWallCollisions`: the four boundary blocks run in sequence,
all testing the position captured before the first block. -/
def Game.handleWallCollisions (g : Game α) : Game α :=
  let pos := g.ball.pos
  let radius := g.ball.radius
  (((g.leftWallStep pos radius).rightWallStep pos radius).topWallStep
      pos radius).bottomStep pos radius

/-- `MAX_ANGLE_RAD` from `Game::handlePaddleCollision`: 75 degrees, using the
source's value for pi. -/
noncomputable def MAX_ANGLE_RAD : ℝ := 75 * (3.14159265 / 180)

/-- `Game::handlePaddleCollision`: skipped unless the ball moves downward;
broad-phase test of the ball centre against the paddle rectangle expanded by
the radius (sizes are positive, so SFML's `contains` is the half-open box
test); on a hit, reposition just above the paddle and steer by the hit
offset, then re-normalise the speed. -/
noncomputable def Game.handlePaddleCollision (g : Game ℝ) : Game ℝ :=
  if g.ball.vel.y ≤ 0 then g
  else
    let ballPos := g.ball.pos
    let radius := g.ball.radius
    let expLeft := g.paddle.x - radius
    let expTop := g.paddle.y - radius
    let expWidth := g.paddle.width + 2 * radius
    let expHeight := g.paddle.height + 2 * radius
    if expLeft ≤ ballPos.x ∧ ballPos.x < expLeft + expWidth ∧
        expTop ≤ ballPos.y ∧ ballPos.y < expTop + expHeight then
      let ball := g.ball.setPosition ballPos.x (g.paddle.y - radius - 0.5)
      let hitOffset := (ballPos.x - g.paddle.getCentreX) / (g.paddle.width * 0.5)
      let hitOffset := max (-1) (min 1 hitOffset)
      let angle := hitOffset * MAX_ANGLE_RAD
      let speed := ball.getSpeed
      let ball := ball.setVelocityX (speed * Real.sin angle)
      let ball := ball.setVelocityY (-speed * Real.cos angle)
      { g with ball := ball.normaliseSpeed g.ballSpeed }
    else g

/-- Nearest point of a brick's rectangle to a point (the clamped coordinates
computed in `Game::handleBrickCollisions`). -/
def closestPoint (c : Vec2 α) (b : Brick α) : Vec2 α :=
  ⟨max b.x (min c.x (b.x + b.width)), max b.y (min c.y (b.y + b.height))⟩

/-- Squared distance from the ball centre to the nearest point of a brick. -/
def nearestDistSq (c : Vec2 α) (b : Brick α) : α :=
  let p := closestPoint c b
  (c.x - p.x) * (c.x - p.x) + (c.y - p.y) * (c.y - p.y)

/-- `Game::reflectBall`: specular reflection `r = v − 2(v·n)n`. -/
def Ball.reflect (b : Ball α) (normal : Vec2 α) : Ball α :=
  let dot := b.vel.x * normal.x + b.vel.y * normal.y
  { b with vel := ⟨b.vel.x - 2 * dot * normal.x, b.vel.y - 2 * dot * normal.y⟩ }

/-- The reflection-and-push-out block of `Game::handleBrickCollisions`, run
for the first colliding brick of the frame: reflect about the normal from
the nearest point to the ball centre (a default upward normal when the
distance is at most the `0.0001` guard), push the ball out along the normal
by the penetration depth plus `0.5`, and re-normalise the speed. -/
noncomputable def resolveBrickHit (ball : Ball ℝ) (ballCenter : Vec2 ℝ)
    (radius ballSpeed : ℝ) (b : Brick ℝ) : Ball ℝ :=
  let p := closestPoint ballCenter b
  let dx := ballCenter.x - p.x
  let dy := ballCenter.y - p.y
  let distSq := dx * dx + dy * dy
  let dist := Real.sqrt distSq
  let normal : Vec2 ℝ := if dist > 0.0001 then ⟨dx / dist, dy / dist⟩ else ⟨0, -1⟩
  let ball := ball.reflect normal
  let penetrationDepth := radius - dist
  let ball := ball.setPosition (ballCenter.x + normal.x * (penetrationDepth + 0.5))
    (ballCenter.y + normal.y * (penetrationDepth + 0.5))
  ball.normaliseSpeed ballSpeed

/-- Loop state of `Game::handleBrickCollisions`: the ball, the score and
remaining-brick counters, the once-per-frame resolution flag, and the bricks
already traversed (the C++ mutates them in place). -/
structure BrickAcc where
  ball : Ball ℝ
  score : ℤ
  bricksRemaining : ℤ
  resolved : Bool
  done : List (Brick ℝ)

/-- One iteration of the brick loop in `Game::handleBrickCollisions`:
skip destroyed bricks and misses; damage every hit brick (scoring it if it
is destroyed by the hit); resolve the ball against the first hit only. -/
noncomputable def brickLoopStep (ballCenter : Vec2 ℝ) (radius ballSpeed : ℝ)
    (acc : BrickAcc) (brick : Brick ℝ) : BrickAcc :=
  if brick.destroyed then { acc with done := acc.done ++ [brick] }
  else if nearestDistSq ballCenter brick ≥ radius * radius then
    { acc with done := acc.done ++ [brick] }
  else
    let brick' := brick.hit
    let score' := if brick'.destroyed then acc.score + brick'.points else acc.score
    let rem' := if brick'.destroyed then acc.bricksRemaining - 1 else acc.bricksRemaining
    if acc.resolved then
      { acc with score := score', bricksRemaining := rem', done := acc.done ++ [brick'] }
    else
      { ball := resolveBrickHit acc.ball ballCenter radius ballSpeed brick
        score := score'
        bricksRemaining := rem'
        resolved := true
        done := acc.done ++ [brick'] }

/-- `Game::handleBrickCollisions`: fold the loop body over the brick list,
with the ball centre and radius captured before the loop. -/
noncomputable def Game.handleBrickCollisions (g : Game ℝ) : Game ℝ :=
  let ballCenter := g.ball.pos
  let radius := g.ball.radius
  let acc := g.bricks.foldl (brickLoopStep ballCenter radius g.ballSpeed)
    ⟨g.ball, g.score, g.bricksRemaining, false, []⟩
  { g with ball := acc.ball, score := acc.score,
           bricksRemaining := acc.bricksRemaining, bricks := acc.done }

/-- The level-complete / victory check at the end of `Game::update`
(`MAX_LEVELS = 5`, `LEVEL_COMPLETE_DELAY = 2`). -/
def Game.checkLevelEnd (g : Game α) : Game α :=
  if g.bricksRemaining ≤ 0 then
    if g.level ≥ 5 then { g with state := GameState.Victory }
    else { g with state := GameState.LevelComplete, levelCompleteTimer := 2 }
  else g

/-- The ball-motion part of `Game::update`: integrate the ball, then run the
three collision resolvers in order. -/
noncomputable def Game.physicsStep (g : Game ℝ) (deltaTime : ℝ) : Game ℝ :=
  (({ g with ball := g.ball.update deltaTime
    }.handleWallCollisions).handlePaddleCollision).handleBrickCollisions

/-- `Game::update`: move the paddle, keep the ball anchored while it rests on
the paddle, otherwise run the physics pipeline and the level-end check. -/
noncomputable def Game.update (g : Game ℝ) (deltaTime : ℝ)
    (leftPressed rightPressed : Bool) : Game ℝ :=
  let g := { g with paddle := g.paddle.update deltaTime 800 leftPressed rightPressed }
  if g.state = GameState.BallOnPaddle then
    { g with ball := g.ball.reset g.paddle.getCentreX (g.paddle.getTopY - 8 - 1) }
  else
    (g.physicsStep deltaTime).checkLevelEnd

/-- The `LevelComplete` branch of `Game::run`: tick the countdown and advance
the level once it elapses. -/
def Game.levelCompleteTick (g : Game α) (deltaTime : α) : Game α :=
  let g := { g with levelCompleteTimer := g.levelCompleteTimer - deltaTime }
  if g.levelCompleteTimer ≤ 0 then g.advanceLevel else g

/-- The collision test applied by the brick loop to each brick: not yet
destroyed, and the nearest point of the rectangle strictly inside the ball. -/
noncomputable def collides (ballCenter : Vec2 ℝ) (radius : ℝ) (b : Brick ℝ) : Bool :=
  if b.destroyed then false
  else if nearestDistSq ballCenter b ≥ radius * radius then false
  else true

/-- Per-brick outcome of one `handleBrickCollisions` frame: hit bricks take
exactly one `hit`, the others are untouched. -/
noncomputable def brickOutcome (ballCenter : Vec2 ℝ) (radius : ℝ) (b : Brick ℝ) : Brick ℝ :=
  if collides ballCenter radius b then b.hit else b

/-- Whether this frame's hit destroys the brick. -/
noncomputable def brickKilled (ballCenter : Vec2 ℝ) (radius : ℝ) (b : Brick ℝ) : Bool :=
  collides ballCenter radius b && (b.hit).destroyed

/-- The clamped hit offset computed by `handlePaddleCollision`. -/
noncomputable def hitOffsetOf (g : Game ℝ) : ℝ :=
  max (-1) (min 1 ((g.ball.pos.x - g.paddle.getCentreX) / (g.paddle.width * 0.5)))

/-- Modelled from the spec: the brick response exactly as the claim words
it — the reflection normal is the unit vector from the nearest point toward
the ball centre whenever the two differ (ball centre outside the
rectangle), and straight up only in the degenerate centre-inside case
(distance zero).  The source (`Game.cpp`) instead falls back to the upward
normal whenever the distance is at most `0.0001`. -/
noncomputable def resolveBrickHitSpec (ball : Ball ℝ) (ballCenter : Vec2 ℝ)
    (radius ballSpeed : ℝ) (b : Brick ℝ) : Ball ℝ :=
  let p := closestPoint ballCenter b
  let dx := ballCenter.x - p.x
  let dy := ballCenter.y - p.y
  let distSq := dx * dx + dy * dy
  let dist := Real.sqrt distSq
  let normal : Vec2 ℝ := if dist > 0 then ⟨dx / dist, dy / dist⟩ else ⟨0, -1⟩
  let ball := ball.reflect normal
  let penetrationDepth := radius - dist
  let ball := ball.setPosition (ballCenter.x + normal.x * (penetrationDepth + 0.5))
    (ballCenter.y + normal.y * (penetrationDepth + 0.5))
  ball.normaliseSpeed ballSpeed

/-- C6: for every delta-time and every input combination, after
`Paddle.update` the left edge lies in `[0, windowWidth − width]`; pressing
left and right together is the same as pressing nothing, and from an
in-bounds position it causes no displacement. -/
theorem C6_paddle_clamp (p : Paddle α) (deltaTime windowWidth : α)
    (leftPressed rightPressed : Bool) (hw : 0 ≤ windowWidth - p.width) :
    (0 ≤ (p.update deltaTime windowWidth leftPressed rightPressed).x ∧
      (p.update deltaTime windowWidth leftPressed rightPressed).x ≤ windowWidth - p.width) ∧
    p.update deltaTime windowWidth true true = p.update deltaTime windowWidth false false ∧
    (0 ≤ p.x → p.x ≤ windowWidth - p.width →
      (p.update deltaTime windowWidth true true).x = p.x) := by
  refine ⟨⟨le_max_left _ _, max_le hw (min_le_right _ _)⟩, ?_, ?_⟩
  · simp [Paddle.update]
  · intro h0 h1
    simp only [Paddle.update, if_true]
    rw [show (-1 : α) + 1 = 0 by norm_num, zero_mul, zero_mul, add_zero,
      min_eq_left h1, max_eq_right h0]

/-- C6 witness: a concrete rational paddle stays clamped and is unmoved by
simultaneous left+right input. -/
theorem C6_paddle_clamp_witness :
    (0 ≤ (Paddle.update (α := ℚ) ⟨100, 555, 120, 14, 500⟩ (1/60) 800 true false).x ∧
      (Paddle.update (α := ℚ) ⟨100, 555, 120, 14, 500⟩ (1/60) 800 true false).x ≤ 800 - 120) ∧
    (Paddle.update (α := ℚ) ⟨100, 555, 120, 14, 500⟩ (1/60) 800 true true).x = 100 := by
  have h1 := C6_paddle_clamp (α := ℚ) ⟨100, 555, 120, 14, 500⟩ (1/60) 800 true false
    (by norm_num)
  have h2 := C6_paddle_clamp (α := ℚ) ⟨100, 555, 120, 14, 500⟩ (1/60) 800 true true
    (by norm_num)
  exact ⟨h1.1, h2.2.2 (by norm_num) (by norm_num)⟩

/-- `Brick.hit` with the branching brought to the top level. -/
theorem brick_hit_eq (b : Brick α) :
    b.hit = if b.destroyed = true then b
      else if b.hitPoints - 1 ≤ 0 then { b with hitPoints := 0, destroyed := true }
      else { b with hitPoints := b.hitPoints - 1 } := rfl

/-- C7: hit points never increase and stay non-negative; a hit on a live
brick decrements them by one, destroying the brick exactly when they reach
zero; a hit on a destroyed brick changes nothing; a destroyed brick is not
drawn and the brick-collision loop skips it entirely. -/
theorem C7_brick_monotonic (b : Brick α) :
    (0 ≤ b.hitPoints → (b.hit).hitPoints ≤ b.hitPoints ∧ 0 ≤ (b.hit).hitPoints) ∧
    (b.destroyed = false → 1 ≤ b.hitPoints →
      (b.hit).hitPoints = b.hitPoints - 1 ∧
      ((b.hit).destroyed = true ↔ b.hitPoints - 1 = 0)) ∧
    (b.destroyed = true → b.hit = b) ∧
    (b.destroyed = true → b.isDrawn = false) ∧
    (∀ (acc : BrickAcc) (ballCenter : Vec2 ℝ) (radius ballSpeed : ℝ) (br : Brick ℝ),
      br.destroyed = true →
      brickLoopStep ballCenter radius ballSpeed acc br = { acc with done := acc.done ++ [br] }) := by
  refine ⟨?_, ?_, ?_, ?_, ?_⟩
  · intro h
    rw [brick_hit_eq]
    split_ifs <;> simp <;> omega
  · intro hd h
    rw [brick_hit_eq, hd]
    simp only [Bool.false_eq_true, if_false]
    split_ifs with h2
    · exact ⟨by simp; omega, by simp; omega⟩
    · exact ⟨by simp, by simp [hd]; omega⟩
  · intro hd
    rw [brick_hit_eq, hd]
    simp
  · intro hd
    simp [Brick.isDrawn, hd]
  · intro acc ballCenter radius ballSpeed br hd
    unfold brickLoopStep
    rw [hd]
    simp

/-- C7 witness: hitting a live two-point rational brick leaves one point;
hitting a destroyed brick is the identity. -/
theorem C7_brick_monotonic_witness :
    ((⟨42, 60, 68, 22, 2, 2, 120, false⟩ : Brick ℚ).hit).hitPoints = 1 ∧
    ((⟨42, 60, 68, 22, 0, 1, 10, true⟩ : Brick ℚ).hit) = ⟨42, 60, 68, 22, 0, 1, 10, true⟩ := by
  have h1 := C7_brick_monotonic (⟨42, 60, 68, 22, 2, 2, 120, false⟩ : Brick ℚ)
  have h2 := C7_brick_monotonic (⟨42, 60, 68, 22, 0, 1, 10, true⟩ : Brick ℚ)
  refine ⟨?_, h2.2.2.1 rfl⟩
  have h3 := (h1.2.1 rfl (by norm_num)).1
  rw [h3]
  decide

/-- `handleWallCollisions` unfolded into its four sequential blocks, all
reading the position and radius captured at entry. -/
theorem handleWallCollisions_eq (g : Game α) :
    g.handleWallCollisions
      = (((g.leftWallStep g.ball.pos g.ball.radius).rightWallStep g.ball.pos
          g.ball.radius).topWallStep g.ball.pos g.ball.radius).bottomStep
          g.ball.pos g.ball.radius := rfl

/-- The three bounce blocks touch only the ball's position and velocity. -/
theorem wallSigns_fields (g : Game α) (pos : Vec2 α) (radius : α) :
    (((g.leftWallStep pos radius).rightWallStep pos radius).topWallStep pos radius).lives
        = g.lives ∧
    (((g.leftWallStep pos radius).rightWallStep pos radius).topWallStep pos radius).state
        = g.state ∧
    (((g.leftWallStep pos radius).rightWallStep pos radius).topWallStep pos radius).paddle
        = g.paddle := by
  unfold Game.leftWallStep Game.rightWallStep Game.topWallStep
  split_ifs <;> simp

/-- C5: a ball past the bottom boundary during play costs a life; at one
life the game ends, otherwise the ball is re-anchored above the paddle's
current centre with zero velocity. -/
theorem C5_life_loss (g : Game α) (hst : g.state = GameState.Playing)
    (hb : g.ball.pos.y - g.ball.radius > 600) :
    (g.lives = 1 → g.handleWallCollisions.lives = 0 ∧
      g.handleWallCollisions.state = GameState.GameOver) ∧
    (1 < g.lives → g.handleWallCollisions.lives = g.lives - 1 ∧
      g.handleWallCollisions.state = GameState.BallOnPaddle ∧
      g.handleWallCollisions.ball.pos.x = g.paddle.getCentreX ∧
      g.handleWallCollisions.ball.pos.y = g.paddle.getTopY - 8 - 1 ∧
      g.handleWallCollisions.ball.vel = ⟨0, 0⟩) := by
  obtain ⟨hl, hs, hp⟩ := wallSigns_fields g g.ball.pos g.ball.radius
  rw [handleWallCollisions_eq]
  unfold Game.bottomStep
  rw [if_pos hb, hl]
  constructor
  · intro h1
    rw [if_pos (by omega : g.lives - 1 ≤ 0)]
    simp
  · intro h1
    rw [if_neg (by omega : ¬ g.lives - 1 ≤ 0)]
    unfold Game.resetBallOnPaddle Ball.reset
    simp [hp]

/-- C5 witness: a concrete rational game state with three lives and the ball
fully below the window re-anchors the ball and keeps two lives. -/
theorem C5_life_loss_witness :
    (Game.handleWallCollisions (α := ℚ)
        ⟨⟨⟨400, 620⟩, ⟨10, 250⟩, 8, true⟩, ⟨340, 555, 120, 14, 500⟩, [],
          GameState.Playing, 0, 3, 1, 320, 0, 60, GameState.MainMenu⟩).lives = 2 ∧
    (Game.handleWallCollisions (α := ℚ)
        ⟨⟨⟨400, 620⟩, ⟨10, 250⟩, 8, true⟩, ⟨340, 555, 120, 14, 500⟩, [],
          GameState.Playing, 0, 3, 1, 320, 0, 60, GameState.MainMenu⟩).ball.pos.x = 400 := by
  have h := C5_life_loss (α := ℚ)
    ⟨⟨⟨400, 620⟩, ⟨10, 250⟩, 8, true⟩, ⟨340, 555, 120, 14, 500⟩, [],
      GameState.Playing, 0, 3, 1, 320, 0, 60, GameState.MainMenu⟩ rfl (by norm_num)
  obtain ⟨-, h2⟩ := h
  obtain ⟨e1, -, e3, -, -⟩ := h2 (by norm_num)
  refine ⟨by rw [e1]; decide, ?_⟩
  rw [e3]
  show (340 : ℚ) + 120 * (1/2) = 400
  norm_num

/-- C10: the side and top walls respond as soon as the ball's near edge
crosses them, but the bottom boundary reacts only once the ball's top edge
(`centre y − radius`) is past the window height: a ball merely touching or
overlapping the bottom edge keeps its lives, state and downward velocity. -/
theorem C10_bottom_boundary (g : Game α) :
    (g.ball.pos.x - g.ball.radius < 0 → ¬(g.ball.pos.x + g.ball.radius > 800) →
      ¬(g.ball.pos.y - g.ball.radius > 600) →
      g.handleWallCollisions.ball.vel.x = |g.ball.vel.x|) ∧
    (¬(g.ball.pos.x - g.ball.radius < 0) → g.ball.pos.x + g.ball.radius > 800 →
      ¬(g.ball.pos.y - g.ball.radius > 600) →
      g.handleWallCollisions.ball.vel.x = -|g.ball.vel.x|) ∧
    (g.ball.pos.y - g.ball.radius < 0 →
      g.handleWallCollisions.ball.vel.y = |g.ball.vel.y| ∧
      g.handleWallCollisions.ball.pos.y = g.ball.radius) ∧
    (¬(g.ball.pos.y - g.ball.radius > 600) →
      g.handleWallCollisions.lives = g.lives ∧
      g.handleWallCollisions.state = g.state) ∧
    (g.ball.radius = 8 → g.ball.pos.y + g.ball.radius ≥ 600 →
      ¬(g.ball.pos.y - g.ball.radius > 600) →
      g.handleWallCollisions.ball.vel.y = g.ball.vel.y) ∧
    (g.ball.pos.y - g.ball.radius > 600 →
      g.handleWallCollisions.lives = if g.lives - 1 ≤ 0 then 0 else g.lives - 1) := by
  refine ⟨?_, ?_, ?_, ?_, ?_, ?_⟩
  · intro hL hR hB
    by_cases hT : g.ball.pos.y - g.ball.radius < 0 <;>
      simp [handleWallCollisions_eq, Game.leftWallStep, Game.rightWallStep,
        Game.topWallStep, Game.bottomStep, hL, hR, hB, hT,
        Ball.setVelocityX, Ball.setVelocityY, Ball.setPosition]
  · intro hL hR hB
    by_cases hT : g.ball.pos.y - g.ball.radius < 0 <;>
      simp [handleWallCollisions_eq, Game.leftWallStep, Game.rightWallStep,
        Game.topWallStep, Game.bottomStep, hL, hR, hB, hT,
        Ball.setVelocityX, Ball.setVelocityY, Ball.setPosition]
  · intro hT
    have hB : ¬(g.ball.pos.y - g.ball.radius > 600) := by
      have h600 : (0 : α) ≤ 600 := by norm_num
      intro hgt
      exact absurd (lt_trans hgt hT) (by norm_num)
    by_cases hL : g.ball.pos.x - g.ball.radius < 0 <;>
      by_cases hR : g.ball.pos.x + g.ball.radius > 800 <;>
      simp [handleWallCollisions_eq, Game.leftWallStep, Game.rightWallStep,
        Game.topWallStep, Game.bottomStep, hL, hR, hB, hT,
        Ball.setVelocityX, Ball.setVelocityY, Ball.setPosition]
  · intro hB
    by_cases hL : g.ball.pos.x - g.ball.radius < 0 <;>
      by_cases hR : g.ball.pos.x + g.ball.radius > 800 <;>
      by_cases hT : g.ball.pos.y - g.ball.radius < 0 <;>
      simp [handleWallCollisions_eq, Game.leftWallStep, Game.rightWallStep,
        Game.topWallStep, Game.bottomStep, hL, hR, hB, hT,
        Ball.setVelocityX, Ball.setVelocityY, Ball.setPosition]
  · intro hrad htouch hB
    have hT : ¬(g.ball.pos.y - g.ball.radius < 0) := by
      rw [hrad] at htouch ⊢
      intro hlt
      linarith
    by_cases hL : g.ball.pos.x - g.ball.radius < 0 <;>
      by_cases hR : g.ball.pos.x + g.ball.radius > 800 <;>
      simp [handleWallCollisions_eq, Game.leftWallStep, Game.rightWallStep,
        Game.topWallStep, Game.bottomStep, hL, hR, hB, hT,
        Ball.setVelocityX, Ball.setVelocityY, Ball.setPosition]
  · intro hB
    obtain ⟨hl, -, -⟩ := wallSigns_fields g g.ball.pos g.ball.radius
    rw [handleWallCollisions_eq]
    unfold Game.bottomStep
    rw [if_pos hB, hl]
    split_ifs <;> simp [Game.resetBallOnPaddle, Ball.reset] <;>
      split_ifs <;> first | rfl | omega

/-- C10 witness: a concrete ball overlapping (but not fully past) the bottom
edge keeps its lives and downward velocity; one fully past loses a life. -/
theorem C10_bottom_boundary_witness :
    (Game.handleWallCollisions (α := ℚ)
        ⟨⟨⟨400, 598⟩, ⟨30, 250⟩, 8, true⟩, ⟨340, 555, 120, 14, 500⟩, [],
          GameState.Playing, 0, 3, 1, 320, 0, 60, GameState.MainMenu⟩).lives = 3 ∧
    (Game.handleWallCollisions (α := ℚ)
        ⟨⟨⟨400, 598⟩, ⟨30, 250⟩, 8, true⟩, ⟨340, 555, 120, 14, 500⟩, [],
          GameState.Playing, 0, 3, 1, 320, 0, 60, GameState.MainMenu⟩).ball.vel.y = 250 ∧
    (Game.handleWallCollisions (α := ℚ)
        ⟨⟨⟨3, 300⟩, ⟨-30, 250⟩, 8, true⟩, ⟨340, 555, 120, 14, 500⟩, [],
          GameState.Playing, 0, 3, 1, 320, 0, 60, GameState.MainMenu⟩).ball.vel.x = 30 := by
  have h1 := C10_bottom_boundary (α := ℚ)
    ⟨⟨⟨400, 598⟩, ⟨30, 250⟩, 8, true⟩, ⟨340, 555, 120, 14, 500⟩, [],
      GameState.Playing, 0, 3, 1, 320, 0, 60, GameState.MainMenu⟩
  have h2 := C10_bottom_boundary (α := ℚ)
    ⟨⟨⟨3, 300⟩, ⟨-30, 250⟩, 8, true⟩, ⟨340, 555, 120, 14, 500⟩, [],
      GameState.Playing, 0, 3, 1, 320, 0, 60, GameState.MainMenu⟩
  refine ⟨(h1.2.2.2.1 (by norm_num)).1, ?_, ?_⟩
  · have := h1.2.2.2.2.1 rfl (by norm_num) (by norm_num)
    rw [this]
  · have := h2.1 (by norm_num) (by norm_num) (by norm_num)
    rw [this]
    norm_num

/-- Every brick built by `createBricks` starts intact, with
`1 + max 0 (level − 1)` hit points (every row's base is 1) equal to its
maximum, and with its point value precomputed as a row base value times its
maximum hit points. -/
theorem createBricks_brick_facts (g : Game α) :
    ∀ b ∈ (g.createBricks).bricks,
      b.destroyed = false ∧
      b.hitPoints = 1 + max 0 (g.level - 1) ∧
      b.maxHitPoints = b.hitPoints ∧
      ∃ row, row < 6 ∧ b.points = ROW_POINTS.getD row 0 * b.maxHitPoints := by
  intro b hb
  simp only [Game.createBricks] at hb
  rw [List.mem_flatMap] at hb
  obtain ⟨row, hrow, hb⟩ := hb
  rw [List.mem_map] at hb
  obtain ⟨col, hcol, rfl⟩ := hb
  rw [List.mem_range] at hrow
  have h1 : ROW_BASE_HIT_POINTS.getD row 0 = 1 := by
    interval_cases row <;> rfl
  refine ⟨rfl, ?_, rfl, row, hrow, rfl⟩
  show ROW_BASE_HIT_POINTS.getD row 0 + max 0 (g.level - 1) = 1 + max 0 (g.level - 1)
  rw [h1]

/-- `createBricks` builds a 6 × 10 grid. -/
theorem createBricks_length (g : Game α) : (g.createBricks).bricks.length = 60 := by
  simp only [Game.createBricks]
  rfl

/-- `createBricks` sets the remaining-brick counter to the grid size. -/
theorem createBricks_remaining (g : Game α) : (g.createBricks).bricksRemaining = 60 := by
  have h := createBricks_length g
  simp only [Game.createBricks] at h ⊢
  rw [h]
  rfl

/-- Total point value of a fresh grid: sixty bricks whose row bases sum to
`60+50+40+30+20+10` per column, times the uniform hit-point count. -/
theorem createBricks_points_sum (g : Game α) :
    (((g.createBricks).bricks).map Brick.points).sum
      = 2100 * (1 + max 0 (g.level - 1)) := by
  simp only [Game.createBricks]
  rw [show List.range 6 = [0, 1, 2, 3, 4, 5] by decide,
    show List.range 10 = [0, 1, 2, 3, 4, 5, 6, 7, 8, 9] by decide]
  simp [ROW_POINTS, ROW_BASE_HIT_POINTS]
  ring

/-- Observable effect of `advanceLevel`: next level, stepped-and-capped ball
speed, paddle re-centred at 340, ball back on the paddle, and a fresh intact
grid for the new level. -/
theorem advanceLevel_facts (g : Game α) (hlev : 0 ≤ g.level) :
    (g.advanceLevel).level = g.level + 1 ∧
    (g.advanceLevel).ballSpeed = min (g.ballSpeed + 35) 600 ∧
    (g.advanceLevel).paddle.x = 340 ∧
    (g.advanceLevel).state = GameState.BallOnPaddle ∧
    (g.advanceLevel).bricks.length = 60 ∧
    ∀ b ∈ (g.advanceLevel).bricks,
      b.destroyed = false ∧ b.hitPoints = 1 + g.level ∧ b.maxHitPoints = b.hitPoints := by
  unfold Game.advanceLevel
  have hmem := createBricks_brick_facts (α := α)
    { g with
      level := g.level + 1,
      ballSpeed := min (g.ballSpeed + 35) 600,
      paddle := g.paddle.setPositionX ((800 - 120) * (1/2)) }
  have hlen := createBricks_length (α := α)
    { g with
      level := g.level + 1,
      ballSpeed := min (g.ballSpeed + 35) 600,
      paddle := g.paddle.setPositionX ((800 - 120) * (1/2)) }
  refine ⟨?_, ?_, ?_, ?_, ?_, ?_⟩
  · simp [Game.resetBallOnPaddle, Game.createBricks]
  · simp [Game.resetBallOnPaddle, Game.createBricks]
  · simp [Game.resetBallOnPaddle, Game.createBricks, Paddle.setPositionX]
    norm_num
  · simp [Game.resetBallOnPaddle]
  · simpa [Game.resetBallOnPaddle] using hlen
  · intro b hb
    rw [Game.resetBallOnPaddle] at hb
    simp only at hb
    obtain ⟨h1, h2, h3, -⟩ := hmem b hb
    refine ⟨h1, ?_, h3⟩
    rw [h2]
    simp only
    rw [show g.level + 1 - 1 = g.level by ring, max_eq_right hlev]

/-- C4: clearing the bricks while below the last level enters
`LevelComplete` and starts the countdown (victory instead on the last
level); when the countdown expires the level increments by one, the ball
speed steps up by 35 capped at 600, the paddle is re-centred, a fresh intact
6 × 10 grid with `1 + (newLevel − 1)` hit points per brick is built, and the
game returns to `BallOnPaddle`; during `Playing` the update pipeline ends in
exactly this check. -/
theorem C4_level_progression (g : Game α) (hlev : 1 ≤ g.level) :
    (g.bricksRemaining ≤ 0 → g.level < 5 →
      g.checkLevelEnd.state = GameState.LevelComplete ∧
      g.checkLevelEnd.levelCompleteTimer = 2) ∧
    (g.bricksRemaining ≤ 0 → 5 ≤ g.level →
      g.checkLevelEnd.state = GameState.Victory) ∧
    (∀ deltaTime : α, g.levelCompleteTimer - deltaTime ≤ 0 →
      (g.levelCompleteTick deltaTime).level = g.level + 1 ∧
      (g.levelCompleteTick deltaTime).ballSpeed = min (g.ballSpeed + 35) 600 ∧
      (g.levelCompleteTick deltaTime).paddle.x = 340 ∧
      (g.levelCompleteTick deltaTime).state = GameState.BallOnPaddle ∧
      (g.levelCompleteTick deltaTime).bricks.length = 60 ∧
      ∀ b ∈ (g.levelCompleteTick deltaTime).bricks,
        b.destroyed = false ∧ b.hitPoints = 1 + (g.level + 1 - 1) ∧
        b.maxHitPoints = b.hitPoints) ∧
    (∀ (gr : Game ℝ) (deltaTime : ℝ) (leftPressed rightPressed : Bool),
      gr.state = GameState.Playing →
      gr.update deltaTime leftPressed rightPressed
        = (Game.physicsStep
            { gr with paddle := gr.paddle.update deltaTime 800 leftPressed rightPressed }
            deltaTime).checkLevelEnd) := by
  refine ⟨?_, ?_, ?_, ?_⟩
  · intro hrem hl5
    unfold Game.checkLevelEnd
    rw [if_pos hrem, if_neg (by omega : ¬ g.level ≥ 5)]
    exact ⟨rfl, rfl⟩
  · intro hrem hl5
    unfold Game.checkLevelEnd
    rw [if_pos hrem, if_pos (by omega : g.level ≥ 5)]
  · intro deltaTime hdt
    unfold Game.levelCompleteTick
    rw [if_pos (show ({ g with levelCompleteTimer := g.levelCompleteTimer - deltaTime
      } : Game α).levelCompleteTimer ≤ 0 from hdt)]
    have h := advanceLevel_facts (α := α)
      { g with levelCompleteTimer := g.levelCompleteTimer - deltaTime }
      (by simpa using (by omega : (0 : ℤ) ≤ g.level))
    obtain ⟨h1, h2, h3, h4, h5, h6⟩ := h
    refine ⟨by simpa using h1, by simpa using h2, h3, h4, h5, ?_⟩
    intro b hb
    obtain ⟨e1, e2, e3⟩ := h6 b hb
    exact ⟨e1, by rw [e2]; simp; try omega, e3⟩
  · intro gr deltaTime leftPressed rightPressed hst
    unfold Game.update
    rw [if_neg (by simp [hst])]

/-- C4 witness: a concrete rational game on level 1 with no bricks left
enters `LevelComplete`, and an expired countdown advances it to level 2 with
ball speed 355 and a fresh 60-brick grid. -/
theorem C4_level_progression_witness :
    (Game.checkLevelEnd (α := ℚ)
        ⟨⟨⟨400, 300⟩, ⟨10, 250⟩, 8, true⟩, ⟨340, 555, 120, 14, 500⟩, [],
          GameState.Playing, 0, 3, 1, 320, 0, 0, GameState.MainMenu⟩).state
      = GameState.LevelComplete ∧
    (Game.levelCompleteTick (α := ℚ)
        ⟨⟨⟨400, 300⟩, ⟨10, 250⟩, 8, true⟩, ⟨340, 555, 120, 14, 500⟩, [],
          GameState.LevelComplete, 0, 3, 1, 320, 1, 0, GameState.MainMenu⟩ 2).level = 2 ∧
    (Game.levelCompleteTick (α := ℚ)
        ⟨⟨⟨400, 300⟩, ⟨10, 250⟩, 8, true⟩, ⟨340, 555, 120, 14, 500⟩, [],
          GameState.LevelComplete, 0, 3, 1, 320, 1, 0, GameState.MainMenu⟩ 2).ballSpeed = 355 ∧
    (Game.levelCompleteTick (α := ℚ)
        ⟨⟨⟨400, 300⟩, ⟨10, 250⟩, 8, true⟩, ⟨340, 555, 120, 14, 500⟩, [],
          GameState.LevelComplete, 0, 3, 1, 320, 1, 0, GameState.MainMenu⟩ 2).bricks.length = 60 := by
  have hA := C4_level_progression (α := ℚ)
    ⟨⟨⟨400, 300⟩, ⟨10, 250⟩, 8, true⟩, ⟨340, 555, 120, 14, 500⟩, [],
      GameState.Playing, 0, 3, 1, 320, 0, 0, GameState.MainMenu⟩ (by norm_num)
  have hB := C4_level_progression (α := ℚ)
    ⟨⟨⟨400, 300⟩, ⟨10, 250⟩, 8, true⟩, ⟨340, 555, 120, 14, 500⟩, [],
      GameState.LevelComplete, 0, 3, 1, 320, 1, 0, GameState.MainMenu⟩ (by norm_num)
  obtain ⟨e1, e2, e3, e4, e5, -⟩ := hB.2.2.1 2 (by norm_num)
  refine ⟨(hA.1 (by norm_num) (by norm_num)).1, by rw [e1]; decide, ?_, e5⟩
  rw [e2]
  norm_num [min_def]

/-- `Brick.hit` never changes the point value. -/
theorem brick_hit_points (b : Brick α) : (b.hit).points = b.points := by
  rw [brick_hit_eq]
  split_ifs <;> rfl

/-- One brick-loop iteration, written as a single case split on the
collision test. -/
theorem brickLoopStep_eq (ballCenter : Vec2 ℝ) (radius ballSpeed : ℝ)
    (acc : BrickAcc) (b : Brick ℝ) :
    brickLoopStep ballCenter radius ballSpeed acc b =
      if collides ballCenter radius b then
        { ball := if acc.resolved then acc.ball
            else resolveBrickHit acc.ball ballCenter radius ballSpeed b
          score := if (b.hit).destroyed then acc.score + b.points else acc.score
          bricksRemaining := if (b.hit).destroyed then acc.bricksRemaining - 1
            else acc.bricksRemaining
          resolved := true
          done := acc.done ++ [b.hit] }
      else { acc with done := acc.done ++ [b] } := by
  by_cases hd : b.destroyed = true
  · simp [brickLoopStep, collides, hd, brick_hit_eq]
  · by_cases hgeo : nearestDistSq ballCenter b ≥ radius * radius
    · simp [brickLoopStep, collides, hd, hgeo]
    · by_cases hres : acc.resolved = true
      · simp [brickLoopStep, collides, hd, hgeo, hres, brick_hit_points]
      · simp [brickLoopStep, collides, hd, hgeo, hres, brick_hit_points]

/-- Full characterisation of the brick-loop fold: the traversed bricks are
mapped through `brickOutcome`, the score collects the point values of the
bricks destroyed this frame, the remaining-brick counter drops by their
number, and the ball is resolved against the first colliding brick only. -/
theorem brickLoop_char (ballCenter : Vec2 ℝ) (radius ballSpeed : ℝ) :
    ∀ (l : List (Brick ℝ)) (acc : BrickAcc),
    l.foldl (brickLoopStep ballCenter radius ballSpeed) acc =
      { ball := if acc.resolved then acc.ball
          else match l.find? (collides ballCenter radius) with
            | some b => resolveBrickHit acc.ball ballCenter radius ballSpeed b
            | none => acc.ball
        score := acc.score +
          ((l.filter (brickKilled ballCenter radius)).map Brick.points).sum
        bricksRemaining := acc.bricksRemaining -
          ((l.filter (brickKilled ballCenter radius)).length : ℤ)
        resolved := acc.resolved || l.any (collides ballCenter radius)
        done := acc.done ++ l.map (brickOutcome ballCenter radius) } := by
  intro l
  induction l with
  | nil => intro acc; simp
  | cons b l ih =>
    intro acc
    rw [List.foldl_cons, brickLoopStep_eq, ih]
    by_cases hcol : collides ballCenter radius b = true
    · rw [if_pos hcol]
      by_cases hkill : (b.hit).destroyed = true
      · rw [List.find?_cons_of_pos _ hcol, List.filter_cons_of_pos (by
          simp [brickKilled, hcol, hkill]), List.any_cons, hcol]
        by_cases hres : acc.resolved = true <;>
          simp [hres, brickOutcome, hcol, hkill] <;>
          constructor <;> push_cast <;> ring
      · rw [List.find?_cons_of_pos _ hcol, List.filter_cons_of_neg (by
          simp [brickKilled, hcol, hkill]), List.any_cons, hcol]
        by_cases hres : acc.resolved = true <;>
          simp [hres, brickOutcome, hcol, hkill]
    · rw [if_neg hcol]
      rw [List.find?_cons_of_neg _ (by simp [hcol]),
        List.filter_cons_of_neg (by simp [brickKilled, hcol]), List.any_cons]
      have hcolf : collides ballCenter radius b = false := by
        simpa using hcol
      simp [hcolf, brickOutcome]

/-- A colliding brick is necessarily not yet destroyed. -/
theorem collides_not_destroyed {ballCenter : Vec2 ℝ} {radius : ℝ} {b : Brick ℝ}
    (h : collides ballCenter radius b = true) : b.destroyed = false := by
  cases hb : b.destroyed
  · rfl
  · rw [collides, hb] at h
    simp at h

/-- Counting survivors after one frame: the live bricks of the mapped list
are the live bricks of the input minus the ones destroyed this frame. -/
theorem alive_map_outcome (ballCenter : Vec2 ℝ) (radius : ℝ) (l : List (Brick ℝ)) :
    (((l.map (brickOutcome ballCenter radius)).filter (fun b => !b.destroyed)).length : ℤ)
      = ((l.filter (fun b => !b.destroyed)).length : ℤ)
        - ((l.filter (brickKilled ballCenter radius)).length : ℤ) := by
  induction l with
  | nil => simp
  | cons b l ih =>
    by_cases hcol : collides ballCenter radius b = true
    · have hb := collides_not_destroyed hcol
      by_cases hkill : (b.hit).destroyed = true
      · simp [List.filter_cons, brickOutcome, brickKilled, hcol, hkill, hb]
        push_cast at ih ⊢
        omega
      · simp [List.filter_cons, brickOutcome, brickKilled, hcol, hkill, hb]
        push_cast at ih ⊢
        omega
    · by_cases hd : b.destroyed = true
      · simp [List.filter_cons, brickOutcome, brickKilled, hcol, hd]
        push_cast at ih ⊢
        omega
      · simp [List.filter_cons, brickOutcome, brickKilled, hcol, hd]
        push_cast at ih ⊢
        omega

/-- `handleBrickCollisions` in closed form, by `brickLoop_char`: bricks are
mapped through `brickOutcome`, the score and the remaining-brick counter
move by the bricks destroyed this frame, and the ball is resolved against
the first colliding brick only. -/
theorem handleBrickCollisions_eq (g : Game ℝ) :
    g.handleBrickCollisions = { g with
      ball := (match g.bricks.find? (collides g.ball.pos g.ball.radius) with
        | some b => resolveBrickHit g.ball g.ball.pos g.ball.radius g.ballSpeed b
        | none => g.ball),
      score := g.score +
        ((g.bricks.filter (brickKilled g.ball.pos g.ball.radius)).map Brick.points).sum,
      bricksRemaining := g.bricksRemaining -
        ((g.bricks.filter (brickKilled g.ball.pos g.ball.radius)).length : ℤ),
      bricks := g.bricks.map (brickOutcome g.ball.pos g.ball.radius) } := by
  simp only [Game.handleBrickCollisions]
  rw [brickLoop_char]
  simp

/-- C8: every brick is built with its point value precomputed as a row base
value times its (full) maximum hit points; a fresh grid's total point value
is `2100 × hp`; the loop adds exactly the brick's point value at the moment
a hit destroys it; and a full `handleBrickCollisions` call adds exactly the
point values of the bricks destroyed in that frame. -/
theorem C8_score_correctness (g : Game α) :
    (∀ b ∈ (g.createBricks).bricks,
      b.hitPoints = b.maxHitPoints ∧
      ∃ row, row < 6 ∧ b.points = ROW_POINTS.getD row 0 * b.maxHitPoints) ∧
    (((g.createBricks).bricks.map Brick.points).sum
      = 2100 * (1 + max 0 (g.level - 1))) ∧
    (∀ (acc : BrickAcc) (ballCenter : Vec2 ℝ) (radius ballSpeed : ℝ) (br : Brick ℝ),
      collides ballCenter radius br = true → (br.hit).destroyed = true →
      (brickLoopStep ballCenter radius ballSpeed acc br).score = acc.score + br.points) ∧
    (∀ gr : Game ℝ, (gr.handleBrickCollisions).score = gr.score +
      ((gr.bricks.filter (brickKilled gr.ball.pos gr.ball.radius)).map Brick.points).sum) := by
  refine ⟨?_, createBricks_points_sum g, ?_, ?_⟩
  · intro b hb
    obtain ⟨-, -, h3, row, hrow, h5⟩ := createBricks_brick_facts g b hb
    exact ⟨h3.symm, row, hrow, h5⟩
  · intro acc ballCenter radius ballSpeed br hcol hkill
    rw [brickLoopStep_eq, if_pos hcol]
    simp [hkill]
  · intro gr
    rw [handleBrickCollisions_eq]

/-- C8 witness: summing a fresh level-1 rational grid gives 2100 points, and
the loop credits a destroyed one-point brick's 60 points to a score of 5. -/
theorem C8_score_correctness_witness :
    ((Game.createBricks (α := ℚ)
        ⟨⟨⟨400, 300⟩, ⟨10, 250⟩, 8, true⟩, ⟨340, 555, 120, 14, 500⟩, [],
          GameState.Playing, 0, 3, 1, 320, 0, 0, GameState.MainMenu⟩).bricks.map
        Brick.points).sum = 2100 ∧
    (brickLoopStep ⟨50, 70⟩ 8 320
        ⟨⟨⟨50, 70⟩, ⟨0, 320⟩, 8, true⟩, 5, 10, false, []⟩
        ⟨42, 60, 68, 22, 1, 1, 60, false⟩).score = 65 := by
  have h := C8_score_correctness (α := ℚ)
    ⟨⟨⟨400, 300⟩, ⟨10, 250⟩, 8, true⟩, ⟨340, 555, 120, 14, 500⟩, [],
      GameState.Playing, 0, 3, 1, 320, 0, 0, GameState.MainMenu⟩
  have h2 := C8_score_correctness (α := ℚ)
    ⟨⟨⟨400, 300⟩, ⟨10, 250⟩, 8, true⟩, ⟨340, 555, 120, 14, 500⟩, [],
      GameState.Playing, 0, 3, 1, 320, 0, 0, GameState.MainMenu⟩
  refine ⟨by rw [h.2.1]; decide, ?_⟩
  have hstep := h2.2.2.1 ⟨⟨⟨50, 70⟩, ⟨0, 320⟩, 8, true⟩, 5, 10, false, []⟩
    ⟨50, 70⟩ 8 320 ⟨42, 60, 68, 22, 1, 1, 60, false⟩
    (by norm_num [collides, nearestDistSq, closestPoint]) rfl
  rw [hstep]
  decide

/-- C9: `createBricks` makes the remaining-brick counter equal the number of
live bricks (all sixty of a fresh grid); the loop decrements it exactly when
a hit destroys a brick; and `handleBrickCollisions` preserves the
counter-equals-live-bricks invariant, so the counter is non-negative and
hits zero exactly when every brick is destroyed. -/
theorem C9_bricks_remaining (g : Game α) :
    ((g.createBricks).bricksRemaining
        = (((g.createBricks).bricks.filter (fun b => !b.destroyed)).length : ℤ) ∧
      (g.createBricks).bricksRemaining = 60) ∧
    (∀ (acc : BrickAcc) (ballCenter : Vec2 ℝ) (radius ballSpeed : ℝ) (br : Brick ℝ),
      collides ballCenter radius br = true → (br.hit).destroyed = true →
      (brickLoopStep ballCenter radius ballSpeed acc br).bricksRemaining
        = acc.bricksRemaining - 1) ∧
    (∀ gr : Game ℝ,
      gr.bricksRemaining = ((gr.bricks.filter (fun b => !b.destroyed)).length : ℤ) →
      (gr.handleBrickCollisions).bricksRemaining
          = (((gr.handleBrickCollisions).bricks.filter (fun b => !b.destroyed)).length : ℤ) ∧
      0 ≤ (gr.handleBrickCollisions).bricksRemaining ∧
      ((gr.handleBrickCollisions).bricksRemaining = 0 ↔
        ∀ b ∈ (gr.handleBrickCollisions).bricks, b.destroyed = true)) := by
  refine ⟨⟨?_, createBricks_remaining g⟩, ?_, ?_⟩
  · have hall : ∀ b ∈ (g.createBricks).bricks, (fun b : Brick α => !b.destroyed) b = true :=
      fun b hb => by simp [(createBricks_brick_facts g b hb).1]
    rw [List.filter_eq_self.mpr hall, createBricks_length, createBricks_remaining]
    rfl
  · intro acc ballCenter radius ballSpeed br hcol hkill
    rw [brickLoopStep_eq, if_pos hcol]
    simp [hkill]
  · intro gr hinv
    rw [handleBrickCollisions_eq]
    simp only
    have halive := alive_map_outcome gr.ball.pos gr.ball.radius gr.bricks
    have hmain : gr.bricksRemaining -
        ((gr.bricks.filter (brickKilled gr.ball.pos gr.ball.radius)).length : ℤ)
        = (((gr.bricks.map (brickOutcome gr.ball.pos gr.ball.radius)).filter
            (fun b => !b.destroyed)).length : ℤ) := by
      rw [halive, hinv]
    refine ⟨hmain, ?_, ?_⟩
    · rw [hmain]
      exact Int.natCast_nonneg _
    · rw [hmain]
      simp [List.length_eq_zero, List.filter_eq_nil_iff]

/-- C9 witness: a concrete real frame destroying the only brick brings the
counter from one to zero, matching the live-brick count. -/
theorem C9_bricks_remaining_witness :
    (brickLoopStep ⟨50, 70⟩ 8 320
        ⟨⟨⟨50, 70⟩, ⟨0, 320⟩, 8, true⟩, 5, 7, false, []⟩
        ⟨42, 60, 68, 22, 1, 1, 60, false⟩).bricksRemaining = 6 ∧
    (0 : ℤ) ≤ (Game.handleBrickCollisions
        ⟨⟨⟨50, 70⟩, ⟨0, 320⟩, 8, true⟩, ⟨340, 555, 120, 14, 500⟩,
          [⟨42, 60, 68, 22, 1, 1, 60, false⟩],
          GameState.Playing, 0, 3, 1, 320, 0, 1, GameState.MainMenu⟩).bricksRemaining := by
  have h := C9_bricks_remaining (α := ℚ)
    ⟨⟨⟨400, 300⟩, ⟨10, 250⟩, 8, true⟩, ⟨340, 555, 120, 14, 500⟩, [],
      GameState.Playing, 0, 3, 1, 320, 0, 0, GameState.MainMenu⟩
  have hstep := h.2.1 ⟨⟨⟨50, 70⟩, ⟨0, 320⟩, 8, true⟩, 5, 7, false, []⟩
    ⟨50, 70⟩ 8 320 ⟨42, 60, 68, 22, 1, 1, 60, false⟩
    (by norm_num [collides, nearestDistSq, closestPoint]) rfl
  have hcall := h.2.2
    ⟨⟨⟨50, 70⟩, ⟨0, 320⟩, 8, true⟩, ⟨340, 555, 120, 14, 500⟩,
      [⟨42, 60, 68, 22, 1, 1, 60, false⟩],
      GameState.Playing, 0, 3, 1, 320, 0, 1, GameState.MainMenu⟩ (by rfl)
  exact ⟨by rw [hstep]; decide, hcall.2.1⟩

/-- Squared magnitudes are non-negative. -/
theorem Vec2.normSq_nonneg (v : Vec2 ℝ) : 0 ≤ v.normSq :=
  add_nonneg (mul_self_nonneg _) (mul_self_nonneg _)

/-- Magnitude against a non-negative target, via the squared magnitude. -/
theorem Vec2.norm_eq_iff (v : Vec2 ℝ) (s : ℝ) (hs : 0 ≤ s) :
    v.norm = s ↔ v.normSq = s * s := by
  unfold Vec2.norm
  constructor
  · intro h
    rw [← h, Real.mul_self_sqrt (Vec2.normSq_nonneg v)]
  · intro h
    rw [h, Real.sqrt_mul_self hs]

/-- `getSpeed` is the velocity magnitude. -/
theorem Ball.getSpeed_eq_norm (b : Ball ℝ) : b.getSpeed = b.vel.norm := rfl

/-- `normaliseSpeed` with the branching brought to the top level. -/
theorem normaliseSpeed_eq (b : Ball ℝ) (speed : ℝ) :
    b.normaliseSpeed speed = if b.getSpeed < 0.0001 then b
      else { b with vel := ⟨b.vel.x / b.getSpeed * speed, b.vel.y / b.getSpeed * speed⟩ } :=
  rfl

/-- When the current speed clears the guard, `normaliseSpeed` lands exactly
on the target magnitude (squared form). -/
theorem normaliseSpeed_normSq (b : Ball ℝ) (target s : ℝ)
    (hs : b.vel.normSq = s * s) (hs1 : (0.0001 : ℝ) ≤ s) :
    (b.normaliseSpeed target).vel.normSq = target * target := by
  have hs0 : 0 ≤ s := le_trans (by norm_num) hs1
  have hsne : s ≠ 0 := by
    intro h
    rw [h] at hs1
    norm_num at hs1
  have hspeed : b.getSpeed = s := by
    rw [Ball.getSpeed_eq_norm, Vec2.norm_eq_iff _ _ hs0]
    exact hs
  rw [normaliseSpeed_eq, if_neg (by rw [hspeed]; linarith)]
  unfold Vec2.normSq at hs ⊢
  simp only [hspeed]
  have expand : b.vel.x / s * target * (b.vel.x / s * target) +
      b.vel.y / s * target * (b.vel.y / s * target)
      = (b.vel.x * b.vel.x + b.vel.y * b.vel.y) * (target * target) / (s * s) := by
    field_simp
    ring
  rw [expand, hs]
  field_simp

/-- `normaliseSpeed` never touches position, radius or the moving flag. -/
theorem normaliseSpeed_rest (b : Ball ℝ) (speed : ℝ) :
    (b.normaliseSpeed speed).pos = b.pos ∧
    (b.normaliseSpeed speed).moving = b.moving := by
  rw [normaliseSpeed_eq]
  split_ifs <;> exact ⟨rfl, rfl⟩

/-- Specular reflection about a unit normal preserves the squared speed. -/
theorem reflect_normSq (b : Ball ℝ) (n : Vec2 ℝ) (hn : n.x * n.x + n.y * n.y = 1) :
    (b.reflect n).vel.normSq = b.vel.normSq := by
  unfold Ball.reflect Vec2.normSq
  simp only
  linear_combination (4 * (b.vel.x * n.x + b.vel.y * n.y) ^ 2) * hn

/-- The brick-hit resolution (reflection, push-out, re-normalisation) lands
exactly on the target speed whenever the incoming speed already equals it. -/
theorem resolveBrickHit_normSq (ball : Ball ℝ) (ballCenter : Vec2 ℝ)
    (radius ballSpeed : ℝ) (b : Brick ℝ)
    (hs : ball.vel.normSq = ballSpeed * ballSpeed) (hbs : (0.0001 : ℝ) ≤ ballSpeed) :
    (resolveBrickHit ball ballCenter radius ballSpeed b).vel.normSq
      = ballSpeed * ballSpeed ∧
    (resolveBrickHit ball ballCenter radius ballSpeed b).moving = ball.moving := by
  have key : ∀ (n : Vec2 ℝ) (px py : ℝ), n.x * n.x + n.y * n.y = 1 →
      ((((ball.reflect n).setPosition px py).normaliseSpeed ballSpeed).vel.normSq
          = ballSpeed * ballSpeed ∧
        (((ball.reflect n).setPosition px py).normaliseSpeed ballSpeed).moving
          = ball.moving) := by
    intro n px py hn
    have h1 : ((ball.reflect n).setPosition px py).vel.normSq = ballSpeed * ballSpeed := by
      have : ((ball.reflect n).setPosition px py).vel = (ball.reflect n).vel := rfl
      rw [this, reflect_normSq ball n hn, hs]
    refine ⟨normaliseSpeed_normSq _ _ ballSpeed h1 hbs, ?_⟩
    rw [(normaliseSpeed_rest _ _).2]
    rfl
  simp only [resolveBrickHit]
  set dx := ballCenter.x - (closestPoint ballCenter b).x with hdx
  set dy := ballCenter.y - (closestPoint ballCenter b).y with hdy
  by_cases hdist : Real.sqrt (dx * dx + dy * dy) > 0.0001
  · rw [if_pos hdist]
    have hq : 0 ≤ dx * dx + dy * dy :=
      add_nonneg (mul_self_nonneg _) (mul_self_nonneg _)
    have hpos : 0 < dx * dx + dy * dy := by
      rcases lt_or_eq_of_le hq with h | h
      · exact h
      · rw [← h] at hdist
        rw [Real.sqrt_zero] at hdist
        norm_num at hdist
    have hsq : Real.sqrt (dx * dx + dy * dy) * Real.sqrt (dx * dx + dy * dy)
        = dx * dx + dy * dy := Real.mul_self_sqrt hq
    have hne : Real.sqrt (dx * dx + dy * dy) ≠ 0 := by
      intro h
      rw [h] at hsq
      rw [← hsq] at hpos
      norm_num at hpos
    refine key _ _ _ ?_
    show dx / Real.sqrt (dx * dx + dy * dy) * (dx / Real.sqrt (dx * dx + dy * dy)) +
      dy / Real.sqrt (dx * dx + dy * dy) * (dy / Real.sqrt (dx * dx + dy * dy)) = 1
    have hexp : dx / Real.sqrt (dx * dx + dy * dy) * (dx / Real.sqrt (dx * dx + dy * dy)) +
        dy / Real.sqrt (dx * dx + dy * dy) * (dy / Real.sqrt (dx * dx + dy * dy))
        = (dx * dx + dy * dy) /
          (Real.sqrt (dx * dx + dy * dy) * Real.sqrt (dx * dx + dy * dy)) := by
      field_simp
    rw [hexp, hsq]
    exact div_self (ne_of_gt hpos)
  · rw [if_neg hdist]
    refine key _ _ _ ?_
    norm_num

/-- The three bounce blocks only force velocity-component signs, so they
preserve the squared speed and the moving flag. -/
theorem wallSigns_ball (g : Game α) (pos : Vec2 α) (radius : α) :
    (((g.leftWallStep pos radius).rightWallStep pos radius).topWallStep
        pos radius).ball.vel.normSq = g.ball.vel.normSq ∧
    (((g.leftWallStep pos radius).rightWallStep pos radius).topWallStep
        pos radius).ball.moving = g.ball.moving := by
  unfold Game.leftWallStep Game.rightWallStep Game.topWallStep
  split_ifs <;>
    simp [Ball.setVelocityX, Ball.setVelocityY, Ball.setPosition, Vec2.normSq,
      abs_abs, neg_mul_neg, abs_mul_abs_self]

/-- C1: with the ball at the target speed, every collision resolver leaves
it at the target speed — the wall blocks only flip component signs (unless
the bottom block takes the ball out of motion), while the paddle and brick
responses finish with an exact `normaliseSpeed`. -/
theorem C1_speed_invariance (g : Game ℝ)
    (hnorm : g.ball.vel.norm = g.ballSpeed)
    (hspeed : (0.0001 : ℝ) ≤ g.ballSpeed) :
    (g.handleWallCollisions.ball.moving = true →
      g.handleWallCollisions.ball.vel.norm = g.ballSpeed) ∧
    g.handlePaddleCollision.ball.vel.norm = g.ballSpeed ∧
    g.handleBrickCollisions.ball.vel.norm = g.ballSpeed := by
  have hbs0 : (0 : ℝ) ≤ g.ballSpeed := le_trans (by norm_num) hspeed
  have hsq : g.ball.vel.normSq = g.ballSpeed * g.ballSpeed :=
    (Vec2.norm_eq_iff _ _ hbs0).mp hnorm
  obtain ⟨hsq3, hmov3⟩ := wallSigns_ball g g.ball.pos g.ball.radius
  refine ⟨?_, ?_, ?_⟩
  · intro hmov
    rw [handleWallCollisions_eq] at hmov ⊢
    simp only [Game.bottomStep] at hmov ⊢
    split_ifs at hmov ⊢ with h1 h2
    · -- bottom crossed, lives exhausted: ball untouched by this block
      rw [Vec2.norm_eq_iff _ _ hbs0]
      show (((g.leftWallStep g.ball.pos g.ball.radius).rightWallStep g.ball.pos
        g.ball.radius).topWallStep g.ball.pos g.ball.radius).ball.vel.normSq
        = g.ballSpeed * g.ballSpeed
      rw [hsq3, hsq]
    · -- bottom crossed, ball re-anchored: it is no longer moving
      exfalso
      simp [Game.resetBallOnPaddle, Ball.reset] at hmov
    · -- bottom not crossed
      rw [Vec2.norm_eq_iff _ _ hbs0]
      rw [hsq3, hsq]
  · simp only [Game.handlePaddleCollision]
    split_ifs with h1 h2
    · exact hnorm
    · rw [Vec2.norm_eq_iff _ _ hbs0]
      have hgs : (g.ball.setPosition g.ball.pos.x
          (g.paddle.y - g.ball.radius - 0.5)).getSpeed = g.ballSpeed := by
        rw [Ball.getSpeed_eq_norm]
        exact hnorm
      rw [hgs]
      have htrig := Real.sin_sq_add_cos_sq
        (max (-1) (min 1 ((g.ball.pos.x - g.paddle.getCentreX) / (g.paddle.width * 0.5)))
          * MAX_ANGLE_RAD)
      refine normaliseSpeed_normSq _ _ g.ballSpeed ?_ hspeed
      unfold Vec2.normSq
      simp only [Ball.setVelocityY, Ball.setVelocityX]
      linear_combination (g.ballSpeed * g.ballSpeed) * htrig
    · exact hnorm
  · rw [handleBrickCollisions_eq]
    simp only
    cases hfind : g.bricks.find? (collides g.ball.pos g.ball.radius) with
    | none => exact hnorm
    | some b =>
      rw [Vec2.norm_eq_iff _ _ hbs0]
      exact (resolveBrickHit_normSq g.ball g.ball.pos g.ball.radius g.ballSpeed b
        hsq hspeed).1

/-- C1 witness: a concrete real frame — ball at speed 320 over one brick it
is touching — still moves at exactly 320 after each resolver runs. -/
theorem C1_speed_invariance_witness :
    (Game.handlePaddleCollision
        ⟨⟨⟨50, 70⟩, ⟨0, 320⟩, 8, true⟩, ⟨340, 555, 120, 14, 500⟩,
          [⟨42, 60, 68, 22, 1, 1, 60, false⟩],
          GameState.Playing, 0, 3, 1, 320, 0, 1, GameState.MainMenu⟩).ball.vel.norm = 320 ∧
    (Game.handleBrickCollisions
        ⟨⟨⟨50, 70⟩, ⟨0, 320⟩, 8, true⟩, ⟨340, 555, 120, 14, 500⟩,
          [⟨42, 60, 68, 22, 1, 1, 60, false⟩],
          GameState.Playing, 0, 3, 1, 320, 0, 1, GameState.MainMenu⟩).ball.vel.norm = 320 := by
  have h := C1_speed_invariance
    ⟨⟨⟨50, 70⟩, ⟨0, 320⟩, 8, true⟩, ⟨340, 555, 120, 14, 500⟩,
      [⟨42, 60, 68, 22, 1, 1, 60, false⟩],
      GameState.Playing, 0, 3, 1, 320, 0, 1, GameState.MainMenu⟩
    (by
      show Vec2.norm ⟨0, 320⟩ = 320
      unfold Vec2.norm Vec2.normSq
      rw [show ((0 : ℝ) * 0 + 320 * 320) = 320 * 320 by norm_num,
        Real.sqrt_mul_self (by norm_num)])
    (by norm_num)
  exact ⟨h.2.1, h.2.2⟩

/-- C3: the paddle response runs only for a downward-moving ball; on a hit
it parks the ball just above the paddle and relaunches it at angle
`hitOffset × MAX_ANGLE_RAD` from straight up at exactly the target speed; a
centre hit goes straight up, edge hits clamp to ±1, and `MAX_ANGLE_RAD` is
75° within far less than the stated tolerance. -/
theorem C3_paddle_deflection (g : Game ℝ)
    (hnorm : g.ball.vel.norm = g.ballSpeed)
    (hspeed : (0.0001 : ℝ) ≤ g.ballSpeed) :
    (g.ball.vel.y ≤ 0 → g.handlePaddleCollision = g) ∧
    (0 < g.ball.vel.y →
      (g.paddle.x - g.ball.radius ≤ g.ball.pos.x ∧
        g.ball.pos.x < g.paddle.x - g.ball.radius + (g.paddle.width + 2 * g.ball.radius) ∧
        g.paddle.y - g.ball.radius ≤ g.ball.pos.y ∧
        g.ball.pos.y < g.paddle.y - g.ball.radius + (g.paddle.height + 2 * g.ball.radius)) →
      g.handlePaddleCollision.ball.pos
          = ⟨g.ball.pos.x, g.paddle.y - g.ball.radius - 0.5⟩ ∧
        g.handlePaddleCollision.ball.vel
          = ⟨g.ballSpeed * Real.sin (hitOffsetOf g * MAX_ANGLE_RAD),
             -(g.ballSpeed * Real.cos (hitOffsetOf g * MAX_ANGLE_RAD))⟩) ∧
    (0 < g.ball.vel.y →
      (g.paddle.x - g.ball.radius ≤ g.ball.pos.x ∧
        g.ball.pos.x < g.paddle.x - g.ball.radius + (g.paddle.width + 2 * g.ball.radius) ∧
        g.paddle.y - g.ball.radius ≤ g.ball.pos.y ∧
        g.ball.pos.y < g.paddle.y - g.ball.radius + (g.paddle.height + 2 * g.ball.radius)) →
      g.ball.pos.x = g.paddle.getCentreX →
      g.handlePaddleCollision.ball.vel.x = 0 ∧ g.handlePaddleCollision.ball.vel.y < 0) ∧
    |MAX_ANGLE_RAD - 75 * Real.pi / 180| < 1 / 1000 ∧
    (1 ≤ (g.ball.pos.x - g.paddle.getCentreX) / (g.paddle.width * 0.5) →
      hitOffsetOf g = 1) ∧
    ((g.ball.pos.x - g.paddle.getCentreX) / (g.paddle.width * 0.5) ≤ -1 →
      hitOffsetOf g = -1) := by
  have hbs0 : (0 : ℝ) ≤ g.ballSpeed := le_trans (by norm_num) hspeed
  have hbspos : (0 : ℝ) < g.ballSpeed := lt_of_lt_of_le (by norm_num) hspeed
  have hbsne : g.ballSpeed ≠ 0 := ne_of_gt hbspos
  have main : 0 < g.ball.vel.y →
      (g.paddle.x - g.ball.radius ≤ g.ball.pos.x ∧
        g.ball.pos.x < g.paddle.x - g.ball.radius + (g.paddle.width + 2 * g.ball.radius) ∧
        g.paddle.y - g.ball.radius ≤ g.ball.pos.y ∧
        g.ball.pos.y < g.paddle.y - g.ball.radius + (g.paddle.height + 2 * g.ball.radius)) →
      g.handlePaddleCollision.ball.pos
          = ⟨g.ball.pos.x, g.paddle.y - g.ball.radius - 0.5⟩ ∧
        g.handlePaddleCollision.ball.vel
          = ⟨g.ballSpeed * Real.sin (hitOffsetOf g * MAX_ANGLE_RAD),
             -(g.ballSpeed * Real.cos (hitOffsetOf g * MAX_ANGLE_RAD))⟩ := by
    intro hvy hin
    simp only [Game.handlePaddleCollision]
    rw [if_neg (by push_neg; exact hvy), if_pos hin]
    have hgs : (g.ball.setPosition g.ball.pos.x
        (g.paddle.y - g.ball.radius - 0.5)).getSpeed = g.ballSpeed := by
      rw [Ball.getSpeed_eq_norm]
      exact hnorm
    rw [hgs]
    set a := max (-1) (min 1 ((g.ball.pos.x - g.paddle.getCentreX) / (g.paddle.width * 0.5)))
      * MAX_ANGLE_RAD with ha
    have htrig := Real.sin_sq_add_cos_sq a
    set ball2 := ((g.ball.setPosition g.ball.pos.x
        (g.paddle.y - g.ball.radius - 0.5)).setVelocityX
        (g.ballSpeed * Real.sin a)).setVelocityY (-g.ballSpeed * Real.cos a) with hb2
    have hvel2 : ball2.vel = ⟨g.ballSpeed * Real.sin a, -g.ballSpeed * Real.cos a⟩ := rfl
    have hsq2 : ball2.vel.normSq = g.ballSpeed * g.ballSpeed := by
      rw [hvel2]
      unfold Vec2.normSq
      simp only
      linear_combination (g.ballSpeed * g.ballSpeed) * htrig
    have hcs : ball2.getSpeed = g.ballSpeed := by
      rw [Ball.getSpeed_eq_norm, Vec2.norm_eq_iff _ _ hbs0]
      exact hsq2
    rw [normaliseSpeed_eq, if_neg (by rw [hcs]; linarith), hcs]
    constructor
    · rfl
    · show (⟨g.ballSpeed * Real.sin a / g.ballSpeed * g.ballSpeed,
        -g.ballSpeed * Real.cos a / g.ballSpeed * g.ballSpeed⟩ : Vec2 ℝ)
        = ⟨g.ballSpeed * Real.sin (hitOffsetOf g * MAX_ANGLE_RAD),
           -(g.ballSpeed * Real.cos (hitOffsetOf g * MAX_ANGLE_RAD))⟩
      rw [show hitOffsetOf g * MAX_ANGLE_RAD = a from rfl]
      have e1 : g.ballSpeed * Real.sin a / g.ballSpeed * g.ballSpeed
          = g.ballSpeed * Real.sin a := by
        field_simp <;> ring
      have e2 : -g.ballSpeed * Real.cos a / g.ballSpeed * g.ballSpeed
          = -(g.ballSpeed * Real.cos a) := by
        field_simp <;> ring
      rw [e1, e2]
  refine ⟨?_, main, ?_, ?_, ?_, ?_⟩
  · intro hvy
    simp only [Game.handlePaddleCollision]
    rw [if_pos hvy]
  · intro hvy hin hcentre
    obtain ⟨-, hvel⟩ := main hvy hin
    have hoff : hitOffsetOf g = 0 := by
      unfold hitOffsetOf
      rw [hcentre]
      rw [sub_self, zero_div]
      norm_num
    rw [hvel, hoff]
    constructor
    · show g.ballSpeed * Real.sin (0 * MAX_ANGLE_RAD) = 0
      rw [zero_mul, Real.sin_zero, mul_zero]
    · show -(g.ballSpeed * Real.cos (0 * MAX_ANGLE_RAD)) < 0
      rw [zero_mul, Real.cos_zero, mul_one]
      linarith
  · unfold MAX_ANGLE_RAD
    rw [abs_lt]
    constructor <;> nlinarith [Real.pi_gt_3141592, Real.pi_lt_3141593]
  · intro h
    unfold hitOffsetOf
    rw [min_eq_left h, max_eq_right (by norm_num : (-1 : ℝ) ≤ 1)]
  · intro h
    unfold hitOffsetOf
    rw [min_eq_right (le_trans h (by norm_num)), max_eq_left h]

/-- C3 witness: a concrete downward ball striking the paddle centre leaves
with zero horizontal velocity, upward at speed 320, parked half a pixel
above the paddle. -/
theorem C3_paddle_deflection_witness :
    (Game.handlePaddleCollision
        ⟨⟨⟨400, 560⟩, ⟨0, 320⟩, 8, true⟩, ⟨340, 555, 120, 14, 500⟩, [],
          GameState.Playing, 0, 3, 1, 320, 0, 60, GameState.MainMenu⟩).ball.vel.x = 0 ∧
    (Game.handlePaddleCollision
        ⟨⟨⟨400, 560⟩, ⟨0, 320⟩, 8, true⟩, ⟨340, 555, 120, 14, 500⟩, [],
          GameState.Playing, 0, 3, 1, 320, 0, 60, GameState.MainMenu⟩).ball.vel.y < 0 ∧
    (Game.handlePaddleCollision
        ⟨⟨⟨400, 560⟩, ⟨0, 320⟩, 8, true⟩, ⟨340, 555, 120, 14, 500⟩, [],
          GameState.Playing, 0, 3, 1, 320, 0, 60, GameState.MainMenu⟩).ball.pos.y
      = 555 - 8 - 0.5 := by
  have h := C3_paddle_deflection
    ⟨⟨⟨400, 560⟩, ⟨0, 320⟩, 8, true⟩, ⟨340, 555, 120, 14, 500⟩, [],
      GameState.Playing, 0, 3, 1, 320, 0, 60, GameState.MainMenu⟩
    (by
      show Vec2.norm ⟨0, 320⟩ = 320
      unfold Vec2.norm Vec2.normSq
      rw [show ((0 : ℝ) * 0 + 320 * 320) = 320 * 320 by norm_num,
        Real.sqrt_mul_self (by norm_num)])
    (by norm_num)
  have hin : (340 : ℝ) - 8 ≤ 400 ∧ (400 : ℝ) < 340 - 8 + (120 + 2 * 8) ∧
      (555 : ℝ) - 8 ≤ 560 ∧ (560 : ℝ) < 555 - 8 + (14 + 2 * 8) := by norm_num
  have hcentre : (400 : ℝ) = 340 + 120 * (1 / 2) := by norm_num
  obtain ⟨hx, hyneg⟩ := h.2.2.1 (by norm_num) hin hcentre
  obtain ⟨hpos, -⟩ := h.2.1 (by norm_num) hin
  exact ⟨hx, hyneg, by rw [hpos]⟩

/-- C2 (amended): in one `handleBrickCollisions` frame every live brick
whose nearest point lies strictly within the ball radius takes exactly one
`hit`, only the first such brick (in storage order) reflects and pushes out
the ball — with the source's normal, which falls back to straight up
whenever the nearest point is within `0.0001` of the centre — and a frame
over exactly two colliding bricks damages both while resolving the ball
against the first alone. -/
theorem C2_single_reflection (g : Game ℝ) :
    (g.handleBrickCollisions).bricks
        = g.bricks.map (brickOutcome g.ball.pos g.ball.radius) ∧
    (g.handleBrickCollisions).ball
        = (match g.bricks.find? (collides g.ball.pos g.ball.radius) with
           | some b => resolveBrickHit g.ball g.ball.pos g.ball.radius g.ballSpeed b
           | none => g.ball) ∧
    (∀ b1 b2 : Brick ℝ, collides g.ball.pos g.ball.radius b1 = true →
      collides g.ball.pos g.ball.radius b2 = true →
      g.bricks = [b1, b2] →
      (g.handleBrickCollisions).bricks = [b1.hit, b2.hit] ∧
      (g.handleBrickCollisions).ball
        = resolveBrickHit g.ball g.ball.pos g.ball.radius g.ballSpeed b1) := by
  refine ⟨by rw [handleBrickCollisions_eq], by rw [handleBrickCollisions_eq], ?_⟩
  intro b1 b2 h1 h2 hbr
  rw [handleBrickCollisions_eq]
  simp only [hbr]
  constructor
  · simp [brickOutcome, h1, h2]
  · rw [List.find?_cons_of_pos _ h1]

/-- C2 witness: a concrete frame in which the ball straddles the gap
between two adjacent bricks damages both while reflecting only off the
first. -/
theorem C2_single_reflection_witness :
    (Game.handleBrickCollisions
        ⟨⟨⟨170, 111⟩, ⟨0, 320⟩, 8, true⟩, ⟨340, 555, 120, 14, 500⟩,
          [⟨100, 100, 68, 22, 1, 1, 60, false⟩, ⟨172, 100, 68, 22, 1, 1, 60, false⟩],
          GameState.Playing, 0, 3, 1, 320, 0, 2, GameState.MainMenu⟩).bricks
      = [(⟨100, 100, 68, 22, 1, 1, 60, false⟩ : Brick ℝ).hit,
         (⟨172, 100, 68, 22, 1, 1, 60, false⟩ : Brick ℝ).hit] ∧
    (Game.handleBrickCollisions
        ⟨⟨⟨170, 111⟩, ⟨0, 320⟩, 8, true⟩, ⟨340, 555, 120, 14, 500⟩,
          [⟨100, 100, 68, 22, 1, 1, 60, false⟩, ⟨172, 100, 68, 22, 1, 1, 60, false⟩],
          GameState.Playing, 0, 3, 1, 320, 0, 2, GameState.MainMenu⟩).ball
      = resolveBrickHit ⟨⟨170, 111⟩, ⟨0, 320⟩, 8, true⟩ ⟨170, 111⟩ 8 320
          ⟨100, 100, 68, 22, 1, 1, 60, false⟩ := by
  have h := C2_single_reflection
    ⟨⟨⟨170, 111⟩, ⟨0, 320⟩, 8, true⟩, ⟨340, 555, 120, 14, 500⟩,
      [⟨100, 100, 68, 22, 1, 1, 60, false⟩, ⟨172, 100, 68, 22, 1, 1, 60, false⟩],
      GameState.Playing, 0, 3, 1, 320, 0, 2, GameState.MainMenu⟩
  exact h.2.2 _ _
    (by norm_num [collides, nearestDistSq, closestPoint, min_def, max_def])
    (by norm_num [collides, nearestDistSq, closestPoint, min_def, max_def])
    rfl

/-- C2 counterexample to the claim as stated: with the ball centre outside
the brick, a distance of `5·10⁻⁵` from the brick's corner (diagonally, so
the nearest-point direction is `(−3/5, −4/5)`), the source's `0.0001` guard
still picks the straight-up normal, so the resolved velocity differs from
the one the claim's normal (`n` = unit vector from nearest point toward the
centre whenever the centre is outside the rectangle) produces: the code
returns zero horizontal velocity, the claim's reflection returns `−307.2`. -/
theorem C2_counterexample :
    (Game.handleBrickCollisions
        ⟨⟨⟨9999997/100000, 9999996/100000⟩, ⟨0, 320⟩, 8, true⟩,
          ⟨340, 555, 120, 14, 500⟩, [⟨100, 100, 68, 22, 1, 1, 60, false⟩],
          GameState.Playing, 0, 3, 1, 320, 0, 1, GameState.MainMenu⟩).ball.vel
      ≠ (resolveBrickHitSpec ⟨⟨9999997/100000, 9999996/100000⟩, ⟨0, 320⟩, 8, true⟩
          ⟨9999997/100000, 9999996/100000⟩ 8 320
          ⟨100, 100, 68, 22, 1, 1, 60, false⟩).vel := by
  have hcol : collides (⟨9999997/100000, 9999996/100000⟩ : Vec2 ℝ) 8
      ⟨100, 100, 68, 22, 1, 1, 60, false⟩ = true := by
    norm_num [collides, nearestDistSq, closestPoint, min_def, max_def]
  have hcode : (Game.handleBrickCollisions
      ⟨⟨⟨9999997/100000, 9999996/100000⟩, ⟨0, 320⟩, 8, true⟩,
        ⟨340, 555, 120, 14, 500⟩, [⟨100, 100, 68, 22, 1, 1, 60, false⟩],
        GameState.Playing, 0, 3, 1, 320, 0, 1, GameState.MainMenu⟩).ball
      = resolveBrickHit ⟨⟨9999997/100000, 9999996/100000⟩, ⟨0, 320⟩, 8, true⟩
          ⟨9999997/100000, 9999996/100000⟩ 8 320
          ⟨100, 100, 68, 22, 1, 1, 60, false⟩ := by
    rw [handleBrickCollisions_eq]
    simp only
    rw [List.find?_cons_of_pos _ hcol]
  have s1 : Real.sqrt (400000000 : ℝ) = 20000 := by
    rw [show (400000000 : ℝ) = 20000 * 20000 by norm_num,
      Real.sqrt_mul_self (by norm_num)]
  have s2 : Real.sqrt (102400 : ℝ) = 320 := by
    rw [show (102400 : ℝ) = 320 * 320 by norm_num, Real.sqrt_mul_self (by norm_num)]
  have hx1 : (resolveBrickHit ⟨⟨9999997/100000, 9999996/100000⟩, ⟨0, 320⟩, 8, true⟩
      ⟨9999997/100000, 9999996/100000⟩ 8 320
      ⟨100, 100, 68, 22, 1, 1, 60, false⟩).vel.x = 0 := by
    simp only [resolveBrickHit, closestPoint, Ball.reflect, Ball.setPosition,
      normaliseSpeed_eq, Ball.getSpeed]
    norm_num [min_def, max_def]
    rw [s1]
    norm_num
    rw [s2]
    norm_num
  have hx2 : (resolveBrickHitSpec ⟨⟨9999997/100000, 9999996/100000⟩, ⟨0, 320⟩, 8, true⟩
      ⟨9999997/100000, 9999996/100000⟩ 8 320
      ⟨100, 100, 68, 22, 1, 1, 60, false⟩).vel.x = -(1536/5) := by
    simp only [resolveBrickHitSpec, closestPoint, Ball.reflect, Ball.setPosition,
      normaliseSpeed_eq, Ball.getSpeed]
    norm_num [min_def, max_def]
    rw [s1]
    norm_num
    rw [s2]
    norm_num
  intro heq
  rw [hcode] at heq
  have hx := congrArg Vec2.x heq
  rw [hx1, hx2] at hx
  norm_num at hx
